import Mathlib

/-!
Verification of the context-construction and conversation-state engine of
the Duravant digital-assistant app (src/app.py), as a shallow embedding.

Modelling conventions:
* Python strings are sequences of code points, modelled as `List Char`
  (`PyStr`); the slice `s[:n]` is `List.take n`.
* Raw uploaded bytes are `List Nat` (`Bytes`).
* Python functions that can raise return `Except Err α`; an uncaught
  exception propagates through `Except.map` / explicit `match`.
* External collaborators (pypdf, pandas, the bytes decoder, the OpenAI
  chat-completion client) are oracle parameters: functions supplied to the
  embedded code, collected in `Oracles` for the extraction layer and passed
  as a `complete` argument for the generation backend.  The embedded
  control flow around them is translated statement-by-statement from
  src/app.py.
* The Streamlit `st.session_state` store is the `SessionState` record; each
  script-run fragment of `main` that mutates it becomes a function from the
  old state to the new state paired with an `Except Err Unit` recording
  whether the fragment raised.  Assignments that executed before a raise
  persist, exactly as `st.session_state` mutations do in Python.
-/

/-- A Python string: a sequence of code points. -/
abbrev PyStr := List Char

/-- Raw uploaded byte content. -/
abbrev Bytes := List Nat

/-- A raised Python exception, identified by its rendered message. -/
abbrev Err := PyStr

/-- Chat-completion message roles used by app.py. -/
inductive Role where
  | system
  | user
  | assistant
deriving DecidableEq, Repr

/-- One role-tagged message, the dict `\x7b"role": ..., "content": ...\x7d` of app.py. -/
structure Message where
  role : Role
  content : PyStr
deriving DecidableEq, Repr

/-- Python `str.lower()` (code-point-wise lowering; exact for the ASCII
extension strings it is compared against). -/
def pyLower (s : PyStr) : PyStr := s.map Char.toLower

/-- Python `s.endswith(sfx)`. -/
def pyEndsWith (s sfx : PyStr) : Bool := sfx.isSuffixOf s

/-- Python whitespace test used by `str.strip()` (the ASCII whitespace
characters; the prompts and replies handled here contain no exotic spaces). -/
def pyIsSpace (c : Char) : Bool :=
  c = ' ' || c = '\t' || c = '\n' || c = '\r' || c = '\x0b' || c = '\x0c'

/-- Python `str.strip()`: remove leading and trailing whitespace. -/
def pyStrip (s : PyStr) : PyStr :=
  ((s.dropWhile pyIsSpace).reverse.dropWhile pyIsSpace).reverse

/-- Python `sep.join(parts)`. -/
def pyJoin (sep : PyStr) : List PyStr → PyStr
  | [] => []
  | [x] => x
  | x :: xs => x ++ sep ++ pyJoin sep (xs)

/-- External collaborators of the extraction layer (pypdf, pandas, the
permissive bytes decoder), supplied as oracles.

* `pypdfAvailable` models whether `import pypdf` succeeded (`pypdf is None`).
* `pdfReader` models `pypdf.PdfReader(file).pages` together with the
  per-page `extract_text()` calls: reading the stream may raise (corrupt
  bytes), and each page independently either raises, returns `None`, or
  returns text — hence `Except Err (Option PyStr)` per page.
* `read_csv` models `pd.read_csv(file)` followed by
  `df.to_string(index=False)`: the parse may raise (e.g. pandas
  `EmptyDataError` on empty input); on success the oracle yields the
  rendered table.
* `excelFile` models `pd.ExcelFile(file)` with `xls.sheet_names`,
  `xls.parse(sheet)` and `df.to_string(index=False)`: on success it yields
  the sheets in file order as (name, rendered table) pairs.
* `decode_ignore` models `file_bytes.decode(errors="ignore")`; Python
  guarantees this particular call never raises, which theorems below take
  as an explicit totality hypothesis rather than baking it into the type. -/
structure Oracles where
  pypdfAvailable : Bool
  pdfReader : Bytes → Except Err (List (Except Err (Option PyStr)))
  read_csv : Bytes → Except Err PyStr
  excelFile : Bytes → Except Err (List (PyStr × PyStr))
  decode_ignore : Bytes → Except Err PyStr

/-- The page loop of `extract_text_from_pdf`:

    pages = []
    for page in reader.pages:
        try:
            pages.append(page.extract_text() or "")
        except Exception:
            continue
    return "\n\n".join(pages)

A page whose `extract_text()` raises is skipped (`continue`); a page that
returns `None` (or `""`) contributes `""` (`... or ""`). -/
def pdf_pages_to_text (pages : List (Except Err (Option PyStr))) : PyStr :=
  pyJoin (("\n\n").toList)
    (pages.filterMap (fun p =>
      match p with
      | .ok t => some (t.getD [])
      | .error _ => none))

/-- Function `extract_text_from_pdf` of app.py (lines 182-193). -/
def extract_text_from_pdf (o : Oracles) (file : Bytes) : Except Err PyStr :=
  if o.pypdfAvailable = false then
    .ok (("PDF support not available. Install \x27pypdf\x27 to enable PDF parsing.").toList)
  else
    (o.pdfReader file).map pdf_pages_to_text

/-- Function `extract_text_from_csv` of app.py (lines 196-198): `pd.read_csv` plus
`df.to_string(index=False)`, both inside the oracle; no exception handling
in the source, so a parser exception propagates. -/
def extract_text_from_csv (o : Oracles) (file : Bytes) : Except Err PyStr :=
  o.read_csv file

/-- Function `extract_text_from_excel` of app.py (lines 201-207): per-sheet
`f"=== Sheet: \x7bsheet\x7d ===\n\x7bdf.to_string(index=False)\x7d"`, joined with blank
lines; an `ExcelFile`/parse exception propagates. -/
def extract_text_from_excel (o : Oracles) (file : Bytes) : Except Err PyStr :=
  (o.excelFile file).map (fun sheets =>
    pyJoin (("\n\n").toList)
      (sheets.map (fun sh =>
        (("=== Sheet: ").toList) ++ sh.1 ++ ((" ===\n").toList) ++ sh.2)))

/-- The fixed diagnostic of the unsupported-type `except` arm. -/
def unsupported_message : PyStr :=
  ("Unsupported file type. Please upload PDF, CSV, XLSX, or TXT.").toList

/-- Function `load_report_text` of app.py (lines 210-230).  The upload is `none`
for `uploaded_file is None`, otherwise `(name, bytes)` (`uploaded_file.name`
and `uploaded_file.read()`).  Dispatch is on the extension of the lowered name;
the `.txt` branch calls the decoder unguarded, the fallback branch guards
it with `try/except` whose handler returns `unsupported_message`. -/
def load_report_text (o : Oracles) (uploaded : Option (PyStr × Bytes)) : Except Err PyStr :=
  match uploaded with
  | none => .ok []
  | some (name, file_bytes) =>
    let lname := pyLower name
    if pyEndsWith lname ((".pdf").toList) then
      extract_text_from_pdf o file_bytes
    else if pyEndsWith lname ((".csv").toList) then
      extract_text_from_csv o file_bytes
    else if pyEndsWith lname ((".xlsx").toList) || pyEndsWith lname ((".xls").toList) then
      extract_text_from_excel o file_bytes
    else if pyEndsWith lname ((".txt").toList) then
      o.decode_ignore file_bytes
    else
      match o.decode_ignore file_bytes with
      | .ok s => .ok s
      | .error _ => .ok unsupported_message

/-- The document-snippet / summary-snippet truncation of app.py: the Python
slice `text[:bound]` (used as `report_text[:15000]`, `summary[:6000]`),
named `build_snippet` as in the design contract. -/
def build_snippet (text : PyStr) (bound : Nat) : PyStr := text.take bound

/-- The fixed system instruction of `generate_summary` (app.py lines 238-249). -/
def summary_system_prompt : PyStr :=
  ("You are the Duravant Digital Assistant. You analyze manufacturing and ERP-related documents such as downtime reports, production summaries, quality logs, change requests, service reports, and maintenance records.\n\nSummarize the content in the following structured format:\n1) Summary of Issue or Topic\n2) Technical Findings / Key Details\n3) Business Impact\n4) Immediate Corrective Actions (if applicable)\n5) Follow-up Recommendations\n\nUse concise bullet points. If a section is not relevant, write \x27Not specified in the report.\x27").toList

/-- Function `generate_summary` of app.py (lines 234-260): trims the report to
15000 characters, sends [system, user] to the backend, and returns the
stripped completion.  `complete` is the oracle for
`client.chat.completions.create(...).choices[0].message.content` (invoked
with `temperature=0.2`); a backend exception propagates uncaught. -/
def generate_summary (complete : List Message → Except Err PyStr)
    (report_text : PyStr) : Except Err PyStr :=
  let trimmed := build_snippet report_text 15000
  (complete [⟨Role.system, summary_system_prompt⟩, ⟨Role.user, trimmed⟩]).map pyStrip

/-- The fixed system instruction of `chat_with_report` (app.py lines 268-279). -/
def chat_system_prompt : PyStr :=
  ("You are the Duravant Digital Assistant, a conversational assistant that answers questions about manufacturing and ERP-related documents.\n\nYou MUST base your answers only on:\n1) The original report text\n2) The generated summary\n3) The prior conversation history\n\nIf the user asks for information that is not present in the report, clearly say:\n\x27The report does not contain that information.\x27\n\nBe clear, concise, and use professional language suitable for operations, maintenance, supply chain, and finance stakeholders.").toList

/-- The injected context block of `chat_with_report` (app.py lines 283-289):
the labeled concatenation of the summary snippet and the report snippet. -/
def chat_context_block (summary_snippet report_snippet : PyStr) : PyStr :=
  (("Here is the current report context.\n\n=== SUMMARY ===\n").toList)
    ++ summary_snippet
    ++ (("\n\n=== ORIGINAL REPORT TEXT (SNIPPET) ===\n").toList)
    ++ report_snippet
    ++ (("\n").toList)

/-- The message sequence `chat_with_report` sends (app.py lines 281-295):
`messages = [system]`, append the context block as an assistant turn,
append each history turn in order, append the new user message. -/
def chat_messages (user_message report_text summary : PyStr)
    (chat_history : List Message) : List Message :=
  let report_snippet := build_snippet report_text 15000
  let summary_snippet := build_snippet summary 6000
  (([⟨Role.system, chat_system_prompt⟩]
      ++ [⟨Role.assistant, chat_context_block summary_snippet report_snippet⟩])
    ++ chat_history)
    ++ [⟨Role.user, user_message⟩]

/-- Function `chat_with_report` of app.py (lines 263-303): one backend invocation on
`chat_messages`, returning the stripped completion; it only reads
`chat_history` (the Python loop appends the turns to the fresh `messages`
list, never to `chat_history`), so in the embedding it returns the reply
alone and no history value is produced. -/
def chat_with_report (complete : List Message → Except Err PyStr)
    (user_message report_text summary : PyStr)
    (chat_history : List Message) : Except Err PyStr :=
  (complete (chat_messages user_message report_text summary chat_history)).map pyStrip

/-- The `st.session_state` store as initialised by `init_session_state`
(app.py lines 307-315). -/
structure SessionState where
  report_text : PyStr
  summary : PyStr
  chat_history : List Message
  last_filename : Option PyStr
deriving DecidableEq, Repr

/-- The state `init_session_state` establishes on a fresh session. -/
def init_session_state : SessionState :=
  { report_text := [], summary := [], chat_history := [], last_filename := none }

/-- Function `reset_conversation` of app.py (lines 318-319):
`st.session_state.chat_history = []`. -/
def reset_conversation (s : SessionState) : SessionState :=
  { s with chat_history := [] }

/-- The new-upload fragment of `main` (app.py lines 357-366):

    if uploaded_file is not None:
        if st.session_state.last_filename != uploaded_file.name:
            report_text = load_report_text(uploaded_file)
            st.session_state.report_text = report_text
            st.session_state.summary = generate_summary(report_text)
            st.session_state.last_filename = uploaded_file.name
            reset_conversation()

Session-state assignments already executed persist when a later statement
raises, so a `generate_summary` exception leaves `report_text` updated
while `summary`, `last_filename` and `chat_history` keep their old values. -/
def handle_upload (o : Oracles) (complete : List Message → Except Err PyStr)
    (s : SessionState) (uploaded : Option (PyStr × Bytes)) :
    SessionState × Except Err Unit :=
  match uploaded with
  | none => (s, .ok ())
  | some (name, file_bytes) =>
    if s.last_filename ≠ some name then
      match load_report_text o (some (name, file_bytes)) with
      | .error e => (s, .error e)
      | .ok report_text =>
        let s1 := { s with report_text := report_text }
        match generate_summary complete report_text with
        | .error e => (s1, .error e)
        | .ok summ =>
          (reset_conversation { s1 with summary := summ, last_filename := some name }, .ok ())
    else
      (s, .ok ())

/-- The chat-panel fragment of `main` (app.py lines 392-424): the panel is
an informational no-op while `st.session_state.report_text` is falsy
(empty); otherwise, when `st.chat_input` yields a non-empty message, it
calls `chat_with_report` on the current state and then extends
`chat_history` with the user turn followed by the assistant turn.  A
backend exception propagates with the history untouched. -/
def handle_chat (complete : List Message → Except Err PyStr)
    (s : SessionState) (user_input : Option PyStr) :
    SessionState × Except Err Unit :=
  if s.report_text = [] then
    (s, .ok ())
  else
    match user_input with
    | none => (s, .ok ())
    | some u =>
      if u = [] then (s, .ok ())
      else
        match chat_with_report complete u s.report_text s.summary s.chat_history with
        | .error e => (s, .error e)
        | .ok reply =>
          ({ s with chat_history :=
              s.chat_history ++ [⟨Role.user, u⟩, ⟨Role.assistant, reply⟩] }, .ok ())

/-- Session states reachable from a fresh session by any interleaving of
the three `main`-loop fragments (upload handling, chat handling, the reset
button), under arbitrary backend behaviour per step. -/
inductive Reachable (o : Oracles) : SessionState → Prop where
  | init : Reachable o init_session_state
  | upload (c : List Message → Except Err PyStr) (up : Option (PyStr × Bytes))
      {s : SessionState} :
      Reachable o s → Reachable o (handle_upload o c s up).1
  | chat (c : List Message → Except Err PyStr) (inp : Option PyStr)
      {s : SessionState} :
      Reachable o s → Reachable o (handle_chat c s inp).1
  | reset {s : SessionState} :
      Reachable o s → Reachable o (reset_conversation s)

/-- Modelled from the spec: the PDF page loop as §4.2 words it — "a page
that fails to yield text contributes an empty string rather than aborting
the whole document; pages are joined in order with a blank-line
separator".  Compared against `pdf_pages_to_text`, which is what the code
actually does (a raising page is skipped via `continue`). -/
def pdf_pages_to_text_specModel (pages : List (Except Err (Option PyStr))) : PyStr :=
  pyJoin (("\n\n").toList)
    (pages.map (fun p =>
      match p with
      | .ok t => t.getD []
      | .error _ => []))

/-- Byte rendering of an ASCII string, for concrete upload contents. -/
def bytesOf (s : String) : Bytes := s.toList.map Char.toNat

/-- A concrete permissive decoder used to instantiate `decode_ignore` in
witnesses: keeps ASCII bytes, drops the rest (the behaviour of
`bytes.decode(errors="ignore")` on the ASCII inputs used below). -/
def asciiIgnoreDecode (bs : Bytes) : PyStr :=
  bs.filterMap (fun b => if b < 128 then some (Char.ofNat b) else none)

/-- Oracles under which every external parser and the decoder succeed. -/
def totalOracles : Oracles where
  pypdfAvailable := true
  pdfReader := fun _ => .ok []
  read_csv := fun _ => .ok []
  excelFile := fun _ => .ok []
  decode_ignore := fun bs => .ok (asciiIgnoreDecode bs)

/-- Oracles reproducing the real pandas behaviour on empty `.csv` bytes:
`pd.read_csv` raises `EmptyDataError`. -/
def emptyCsvFailOracles : Oracles where
  pypdfAvailable := true
  pdfReader := fun _ => .ok []
  read_csv := fun _ => .error (("EmptyDataError: No columns to parse from file").toList)
  excelFile := fun _ => .ok []
  decode_ignore := fun bs => .ok (asciiIgnoreDecode bs)

/-- A backend that answers every completion request with `reply`. -/
def okComplete (reply : PyStr) : List Message → Except Err PyStr :=
  fun _ => .ok reply

/-- A backend whose call raises (network/auth/rate-limit failure). -/
def failComplete : List Message → Except Err PyStr :=
  fun _ => .error (("RateLimitError").toList)

/-- Concrete upload content. -/
def helloBytes : Bytes := bytesOf ("hello")

/-- Upload event delivering `a.txt`. -/
def uploadA : Option (PyStr × Bytes) := some ((("a.txt").toList), helloBytes)

/-- Upload event delivering `b.txt`. -/
def uploadB : Option (PyStr × Bytes) := some ((("b.txt").toList), helloBytes)

/-- A session with `a.txt` loaded, summarized, and no chat turns yet. -/
def readyState : SessionState :=
  { report_text := ("hello").toList
    summary := ("S").toList
    chat_history := []
    last_filename := some (("a.txt").toList) }

/-- The session after uploading `a.txt` when the summarization backend
call fails: the extracted text is already stored, nothing else moved. -/
def failedSummaryState : SessionState :=
  (handle_upload totalOracles failComplete init_session_state uploadA).1

/-- The session after then sending one chat message (backend succeeds). -/
def chattedState : SessionState :=
  (handle_chat (okComplete (("Hi there.").toList)) failedSummaryState
    (some (("What happened?").toList))).1

/-- Page outcomes of a 3-page PDF whose second page raises on extraction. -/
def cxPages : List (Except Err (Option PyStr)) :=
  [Except.ok (some (("page one").toList)),
   Except.error (("boom").toList),
   Except.ok (some (("page three").toList))]

/-- C1: the claim that `load_report_text` is total for every supported
extension and byte content is false: the `.csv` branch calls
`pd.read_csv` with no exception handling, so the `EmptyDataError` that
pandas raises on empty `.csv` bytes propagates out of `load_report_text`
(concrete input: filename `data.csv`, empty byte content). -/
theorem C1_counterexample :
    ¬ (∀ (o : Oracles) (name : PyStr) (content : Bytes),
        ∃ s, load_report_text o (some (name, content)) = Except.ok s) := by
  intro h
  obtain ⟨s, hs⟩ := h emptyCsvFailOracles (("data.csv").toList) []
  exact Except.noConfusion
    (show Except.error (("EmptyDataError: No columns to parse from file").toList)
        = Except.ok s from hs)

/-- C1 (amended): `load_report_text` returns a string for every upload
provided the external collaborators do not raise — unconditionally on the
`.txt`, unsupported-extension and missing-upload paths, and on the
`.pdf`/`.csv`/`.xlsx`/`.xls` paths whenever the pypdf/pandas parse
succeeds; a parser exception propagates uncaught. -/
theorem C1_totality (o : Oracles)
    (hdec : ∀ b, ∃ d, o.decode_ignore b = Except.ok d)
    (hpdf : ∀ b, ∃ p, o.pdfReader b = Except.ok p)
    (hcsv : ∀ b, ∃ t, o.read_csv b = Except.ok t)
    (hxls : ∀ b, ∃ sh, o.excelFile b = Except.ok sh) :
    ∀ up : Option (PyStr × Bytes), ∃ s, load_report_text o up = Except.ok s := by
  intro up
  match up with
  | none => exact ⟨[], rfl⟩
  | some (name, content) =>
    simp only [load_report_text]
    by_cases h1 : pyEndsWith (pyLower name) ((".pdf").toList) = true
    · simp only [h1, if_true, extract_text_from_pdf]
      by_cases h0 : o.pypdfAvailable = false
      · simp only [h0, if_true]
        exact ⟨_, rfl⟩
      · simp only [h0, if_false]
        obtain ⟨p, hp⟩ := hpdf content
        exact ⟨pdf_pages_to_text p, by rw [hp]; rfl⟩
    · simp only [h1, if_false]
      by_cases h2 : pyEndsWith (pyLower name) ((".csv").toList) = true
      · simp only [h2, if_true, extract_text_from_csv]
        exact hcsv content
      · simp only [h2, if_false]
        by_cases h3 : (pyEndsWith (pyLower name) ((".xlsx").toList)
            || pyEndsWith (pyLower name) ((".xls").toList)) = true
        · simp only [h3, if_true, extract_text_from_excel]
          obtain ⟨sh, hsh⟩ := hxls content
          exact ⟨_, by rw [hsh]; rfl⟩
        · simp only [h3, if_false]
          by_cases h4 : pyEndsWith (pyLower name) ((".txt").toList) = true
          · simp only [h4, if_true]
            exact hdec content
          · simp only [h4, if_false]
            obtain ⟨d, hd⟩ := hdec content
            exact ⟨d, by simp [hd]⟩

/-- C1 witness: with every oracle total, `load_report_text` succeeds on an
empty `.csv` upload. -/
theorem C1_totality_witness :
    ∃ s, load_report_text totalOracles (some ((("data.csv").toList), [])) = Except.ok s :=
  C1_totality totalOracles
    (fun b => ⟨asciiIgnoreDecode b, rfl⟩)
    (fun _ => ⟨[], rfl⟩)
    (fun _ => ⟨[], rfl⟩)
    (fun _ => ⟨[], rfl⟩)
    (some ((("data.csv").toList), []))


/-- C2: the claim that on summarization failure no part of the session
state is advanced is false: in the upload fragment of `main`,
`st.session_state.report_text` is assigned before `generate_summary` is
called, so when the backend raises the failure does propagate, but the
extracted text has already been stored (concrete run: fresh session,
upload `a.txt`, backend raises `RateLimitError`). -/
theorem C2_counterexample :
    (handle_upload totalOracles failComplete init_session_state uploadA).2
        = Except.error (("RateLimitError").toList)
      ∧ (handle_upload totalOracles failComplete init_session_state uploadA).1.report_text
        ≠ init_session_state.report_text := by
  exact ⟨rfl, by decide⟩

/-- C2 (amended): when extraction succeeds and the summarization backend
call fails, the failure propagates to the caller as an explicit error, no
placeholder summary is substituted, and the summary, identity marker and
history are all left unchanged — but the extracted text has already been
stored, so the session does not fully remain in the `Empty` state. -/
theorem C2_failure_frame (o : Oracles) (c : List Message → Except Err PyStr)
    (s : SessionState) (name : PyStr) (content : Bytes) (t : PyStr) (e : Err)
    (hname : s.last_filename ≠ some name)
    (hload : load_report_text o (some (name, content)) = Except.ok t)
    (hfail : generate_summary c t = Except.error e) :
    handle_upload o c s (some (name, content))
      = ({ s with report_text := t }, Except.error e) := by
  simp only [handle_upload, if_pos hname, hload, hfail]

/-- C2 witness: concrete failing run (fresh session, `a.txt`, raising
backend): the error is reported and only `report_text` moved. -/
theorem C2_witness :
    handle_upload totalOracles failComplete init_session_state uploadA
      = ({ init_session_state with report_text := ("hello").toList },
          Except.error (("RateLimitError").toList)) :=
  C2_failure_frame totalOracles failComplete init_session_state
    (("a.txt").toList) helloBytes (("hello").toList) (("RateLimitError").toList)
    (by decide) rfl rfl

/-- C3: the claim that in every reachable state a non-empty history
implies a non-empty summary is false: chat is gated on `report_text`
being non-empty, not on the summary, and after a summarization failure
the extracted text is stored with the summary still empty, so a chat
turn is accepted and appends to history while the summary is empty
(concrete run: upload `a.txt` with raising backend, then one successful
chat message). -/
theorem C3_counterexample :
    ∃ s, Reachable totalOracles s ∧ s.chat_history ≠ [] ∧ s.summary = [] := by
  refine ⟨chattedState, ?_, by decide, rfl⟩
  exact Reachable.chat (okComplete (("Hi there.").toList))
    (some (("What happened?").toList))
    (Reachable.upload failComplete uploadA Reachable.init)

/-- C3 (amended): the chat fragment is a no-op (with no error raised)
whenever the extracted report text is empty — in particular in the
initial `Empty` state — and it can change the history only when report
text is present; the gate is the report text, not the summary, so the
history–summary invariant fails after a summarization failure while a
history–report-text gating per accepted message does hold. -/
theorem C3_chat_gating (c : List Message → Except Err PyStr)
    (s : SessionState) (inp : Option PyStr) :
    (s.report_text = [] → handle_chat c s inp = (s, Except.ok ()))
      ∧ ((handle_chat c s inp).1.chat_history ≠ s.chat_history → s.report_text ≠ []) := by
  constructor
  · intro h
    simp only [handle_chat, if_pos h]
  · intro hne h0
    exact hne (by simp only [handle_chat, if_pos h0])

/-- C3 witness: in the fresh (Empty) session a user message is a no-op. -/
theorem C3_witness :
    handle_chat failComplete init_session_state (some (("hi").toList))
      = (init_session_state, Except.ok ()) :=
  (C3_chat_gating failComplete init_session_state (some (("hi").toList))).1 rfl

/-- C4: the claim that a page whose extraction fails contributes an empty
string is false: the page loop skips a raising page (`continue`) without
appending anything, so on a 3-page PDF whose second page raises the
result is page one and page three joined by one blank-line separator,
not the two separators that an empty-string contribution (the spec-worded
model) would produce. -/
theorem C4_counterexample :
    pdf_pages_to_text cxPages = ("page one\n\npage three").toList
      ∧ pdf_pages_to_text_specModel cxPages = ("page one\n\n\n\npage three").toList
      ∧ pdf_pages_to_text cxPages ≠ pdf_pages_to_text_specModel cxPages := by
  exact ⟨rfl, rfl, by decide⟩

/-- C4 (amended): pages are processed independently and a raising page
never aborts the document: it is skipped, contributing no element, so a
3-page PDF whose second page raises yields page one and page three joined
by a single blank-line separator; a page whose `extract_text()` returns
`None` (rather than raising) contributes an empty string, yielding two
consecutive separators. -/
theorem C4_page_fault_tolerance (p1 p3 : PyStr) (e : Err) :
    pdf_pages_to_text [Except.ok (some p1), Except.error e, Except.ok (some p3)]
        = p1 ++ ("\n\n").toList ++ p3
      ∧ pdf_pages_to_text [Except.ok (some p1), Except.ok none, Except.ok (some p3)]
        = p1 ++ ("\n\n").toList ++ ("\n\n").toList ++ p3 := by
  constructor
  · rfl
  · simp [pdf_pages_to_text, pyJoin, List.append_assoc]

/-- C5: re-delivering an upload whose filename equals the loaded identity
marker is a no-op — the resulting state and outcome are independent of
every oracle and of the backend, so nothing is re-extracted or
re-summarized and the history survives — whereas an upload with a
different filename (when extraction and summarization succeed) clears the
history, replaces the extracted text and summary, and updates the
identity marker. -/
theorem C5_upload_identity (o : Oracles) (c : List Message → Except Err PyStr)
    (s : SessionState) (name : PyStr) (content : Bytes) :
    (s.last_filename = some name →
        handle_upload o c s (some (name, content)) = (s, Except.ok ()))
      ∧ (∀ t summ, s.last_filename ≠ some name →
          load_report_text o (some (name, content)) = Except.ok t →
          generate_summary c t = Except.ok summ →
          handle_upload o c s (some (name, content))
            = ({ report_text := t, summary := summ, chat_history := [],
                 last_filename := some name }, Except.ok ())) := by
  constructor
  · intro h
    simp only [handle_upload, if_neg (not_not_intro h)]
  · intro t summ hname hload hsum
    simp only [handle_upload, if_pos hname, hload, hsum, reset_conversation]

/-- C5 witness: on `readyState` (loaded `a.txt`), re-delivering `a.txt`
changes nothing even under a raising backend, while delivering `b.txt`
with a succeeding backend replaces text and summary, clears history and
updates the marker. -/
theorem C5_witness :
    handle_upload totalOracles failComplete readyState uploadA
        = (readyState, Except.ok ())
      ∧ handle_upload totalOracles (okComplete (("The summary.").toList)) readyState uploadB
        = ({ report_text := ("hello").toList, summary := ("The summary.").toList,
             chat_history := [], last_filename := some (("b.txt").toList) },
            Except.ok ()) :=
  ⟨(C5_upload_identity totalOracles failComplete readyState
      (("a.txt").toList) helloBytes).1 rfl,
   (C5_upload_identity totalOracles (okComplete (("The summary.").toList)) readyState
      (("b.txt").toList) helloBytes).2
      (("hello").toList) (("The summary.").toList) (by decide) rfl rfl⟩

/-- C6: snippet construction is pure prefix truncation: it returns the
text unchanged when its length is within the bound, exactly the first
`bound` characters otherwise (a prefix: snippet plus the dropped tail is
the original text, and its length is `bound`), and it is idempotent at
the same bound — as used with bounds 15000 (document) and 6000 (summary). -/
theorem C6_build_snippet (text : PyStr) (bound : Nat) :
    (text.length ≤ bound → build_snippet text bound = text)
      ∧ (bound ≤ text.length → (build_snippet text bound).length = bound)
      ∧ (build_snippet text bound ++ text.drop bound = text)
      ∧ build_snippet (build_snippet text bound) bound = build_snippet text bound := by
  refine ⟨fun h => List.take_of_length_le h, fun h => ?_,
    List.take_append_drop bound text, ?_⟩
  · rw [build_snippet, List.length_take]
    exact Nat.min_eq_left h
  · rw [build_snippet, build_snippet, List.take_take, Nat.min_self]

/-- C6 witness: concrete truncations at both regimes. -/
theorem C6_witness :
    build_snippet (("hello").toList) 10 = ("hello").toList
      ∧ (build_snippet (("hello world").toList) 5).length = 5 :=
  ⟨(C6_build_snippet (("hello").toList) 10).1 (by decide),
   (C6_build_snippet (("hello world").toList) 5).2.1 (by decide)⟩

/-- C7: the message sequence of every chat turn is exactly: the fixed
system instruction; one assistant-role context message holding the
labeled concatenation of the summary snippet (bound 6000) and the
document snippet (bound 15000); the supplied history in original order;
and the new user message last. -/
theorem C7_message_order (u rt summ : PyStr) (hist : List Message) :
    chat_messages u rt summ hist
      = ⟨Role.system, chat_system_prompt⟩
        :: ⟨Role.assistant,
              chat_context_block (build_snippet summ 6000) (build_snippet rt 15000)⟩
        :: (hist ++ [⟨Role.user, u⟩]) := by
  simp [chat_messages]

/-- C8: the chat responder never mutates the history it is given — it is
a pure function returning only the reply, and the messages it sends embed
the history unchanged (C7) — and the session fragment appends exactly two
turns per accepted user message, the user turn then the assistant turn,
leaving every other field unchanged. -/
theorem C8_chat_append (c : List Message → Except Err PyStr)
    (s : SessionState) (u r : PyStr)
    (hrt : s.report_text ≠ []) (hu : u ≠ [])
    (hok : chat_with_report c u s.report_text s.summary s.chat_history = Except.ok r) :
    handle_chat c s (some u)
      = ({ s with chat_history :=
            s.chat_history ++ [⟨Role.user, u⟩, ⟨Role.assistant, r⟩] },
          Except.ok ()) := by
  simp only [handle_chat, if_neg hrt, if_neg hu, hok]

/-- C8 witness: one accepted message on `readyState` appends the user
turn and the assistant turn, in that order. -/
theorem C8_witness :
    handle_chat (okComplete (("Hi there.").toList)) readyState (some (("hi").toList))
      = ({ readyState with chat_history :=
            [⟨Role.user, ("hi").toList⟩, ⟨Role.assistant, ("Hi there.").toList⟩] },
          Except.ok ()) :=
  C8_chat_append (okComplete (("Hi there.").toList)) readyState
    (("hi").toList) (("Hi there.").toList) (by decide) (by decide) rfl

/-- C9: reset clears the conversation history and changes nothing else:
for every session state, after `reset_conversation` the history is empty
while the summary, the extracted text and the filename identity marker
are unchanged. -/
theorem C9_reset_frame (s : SessionState) :
    (reset_conversation s).chat_history = []
      ∧ (reset_conversation s).summary = s.summary
      ∧ (reset_conversation s).report_text = s.report_text
      ∧ (reset_conversation s).last_filename = s.last_filename :=
  ⟨rfl, rfl, rfl, rfl⟩

/-- C10: for every filename with no recognized extension,
`load_report_text` returns exactly the permissive errors-ignored decode
of the bytes: since `bytes.decode(errors="ignore")` succeeds (hypothesis
`hdec`, a Python guarantee), the `try` arm returns and the `except` arm
that produces the fixed "Unsupported file type" diagnostic is never
executed. -/
theorem C10_fallback_decode (o : Oracles) (name : PyStr) (content : Bytes) (d : PyStr)
    (hpdf : pyEndsWith (pyLower name) ((".pdf").toList) = false)
    (hcsv : pyEndsWith (pyLower name) ((".csv").toList) = false)
    (hxlsx : pyEndsWith (pyLower name) ((".xlsx").toList) = false)
    (hxls : pyEndsWith (pyLower name) ((".xls").toList) = false)
    (htxt : pyEndsWith (pyLower name) ((".txt").toList) = false)
    (hdec : o.decode_ignore content = Except.ok d) :
    load_report_text o (some (name, content)) = Except.ok d := by
  have hp : ¬ (pyEndsWith (pyLower name) ((".pdf").toList) = true) :=
    fun h => Bool.false_ne_true (hpdf ▸ h)
  have hc : ¬ (pyEndsWith (pyLower name) ((".csv").toList) = true) :=
    fun h => Bool.false_ne_true (hcsv ▸ h)
  have hx : ¬ ((pyEndsWith (pyLower name) ((".xlsx").toList)
      || pyEndsWith (pyLower name) ((".xls").toList)) = true) := by
    rw [hxlsx, hxls]
    exact Bool.false_ne_true
  have ht : ¬ (pyEndsWith (pyLower name) ((".txt").toList) = true) :=
    fun h => Bool.false_ne_true (htxt ▸ h)
  simp only [load_report_text, if_neg hp, if_neg hc, if_neg hx, if_neg ht, hdec]

/-- C10 witness: a `.bin` upload is decoded permissively, not diagnosed. -/
theorem C10_witness :
    load_report_text totalOracles (some ((("report.bin").toList), helloBytes))
      = Except.ok (("hello").toList) :=
  C10_fallback_decode totalOracles (("report.bin").toList) helloBytes
    (("hello").toList) (by decide) (by decide) (by decide) (by decide) (by decide) rfl
